import Mathlib

/-!
Verification of the Excel-Copilot repository's action-dispatch core.

The development shallowly embeds the three Python source files:

* `src/excel_agnet.py`   — the direct-execution agent: `safe_excel_operation`
  and the six spreadsheet tools (`_read_cell`, `_write_cell`, `_read_range`,
  `_write_range`, `_get_sheet_names`, `_clear_range`);
* `src/backend_service.py` — the HTTP variant of `safe_excel_operation`,
  which wraps the same tools but returns a `status`/`result`-or-`message`
  dictionary;
* `src/backend_service_llamaindex.py.py` — the delegated-execution variant:
  the twelve `generate_*_instruction` functions and the tool-output
  extraction loop of `handle_excel_command`.

External collaborators are modelled as follows.  `json.loads` is embedded as
`jsonLoads`, a recursive-descent parser for the JSON subset the repository
exchanges (null, booleans, integer numbers, strings with the common escapes,
arrays, objects); the spreadsheet library (xlwings) is embedded as a workbook
state: a list of sheets in insertion order, each sheet a partial map from
(row, column) to a scalar value, with A1-style address parsing, and the
library's exception text for a malformed address abstracted as
`xlRangeErrText` (no theorem depends on its content).  The guard
`safe_excel_operation` is embedded together with an explicit handle trace
(`GuardTrace`) recording which handles were opened, closed and quit on the
taken path, so that resource-release claims are statable.
-/

/-- JSON values, the result type of the embedded `json.loads`. -/
inductive Json where
  | null
  | bool (b : Bool)
  | num (n : Int)
  | str (s : String)
  | arr (elems : List Json)
  | obj (fields : List (String × Json))

/-- Whitespace skipped between JSON tokens. -/
def isWsChar (c : Char) : Bool :=
  c = ' ' || c = '\n' || c = '\t' || c = '\r'

/-- Drop leading JSON whitespace. -/
def skipWs : List Char → List Char
  | c :: cs => if isWsChar c then skipWs cs else c :: cs
  | [] => []

/-- Parse the body of a JSON string literal (after the opening quote),
returning the decoded characters and the input after the closing quote.
Covers the escapes the repository's payloads can contain. -/
def parseStringChars : List Char → Option (List Char × List Char)
  | [] => none
  | c :: cs =>
    if c = '"' then some ([], cs)
    else if c = '\\' then
      match cs with
      | [] => none
      | e :: cs2 =>
        let dec : Option Char :=
          if e = '"' then some '"'
          else if e = '\\' then some '\\'
          else if e = '/' then some '/'
          else if e = 'n' then some '\n'
          else if e = 't' then some '\t'
          else if e = 'r' then some '\r'
          else if e = 'b' then some (Char.ofNat 8)
          else if e = 'f' then some (Char.ofNat 12)
          else none
        match dec with
        | none => none
        | some d =>
          match parseStringChars cs2 with
          | none => none
          | some (out, rest) => some (d :: out, rest)
    else
      match parseStringChars cs with
      | none => none
      | some (out, rest) => some (c :: out, rest)

/-- Split a maximal run of decimal digits off the front of the input. -/
def takeDigits : List Char → List Char × List Char
  | c :: cs =>
    if c.isDigit then
      let (ds, rest) := takeDigits cs
      (c :: ds, rest)
    else ([], c :: cs)
  | [] => ([], [])

/-- Decimal value of a digit run. -/
def digitsToNat (ds : List Char) : Nat :=
  ds.foldl (fun a c => a * 10 + (c.toNat - 48)) 0

mutual

/-- Fuel-indexed JSON value parser (model of `json.loads`; integer numerals
only, which covers every payload this repository exchanges). -/
def parseValue : Nat → List Char → Option (Json × List Char)
  | 0, _ => none
  | fuel + 1, input =>
    match skipWs input with
    | [] => none
    | 'n' :: 'u' :: 'l' :: 'l' :: rest => some (Json.null, rest)
    | 't' :: 'r' :: 'u' :: 'e' :: rest => some (Json.bool true, rest)
    | 'f' :: 'a' :: 'l' :: 's' :: 'e' :: rest => some (Json.bool false, rest)
    | '"' :: rest =>
      match parseStringChars rest with
      | some (cs, rest2) => some (Json.str (String.mk cs), rest2)
      | none => none
    | '[' :: rest =>
      match skipWs rest with
      | ']' :: rest2 => some (Json.arr [], rest2)
      | rest2 => parseElems fuel rest2 []
    | c :: rest =>
      if c.toNat = 123 then
        match skipWs rest with
        | d :: rest2 =>
          if d.toNat = 125 then some (Json.obj [], rest2)
          else parseMembers fuel (d :: rest2) []
        | [] => none
      else if c = '-' then
        match takeDigits rest with
        | ([], _) => none
        | (ds, rest2) => some (Json.num (-(digitsToNat ds : Int)), rest2)
      else if c.isDigit then
        match takeDigits (c :: rest) with
        | (ds, rest2) => some (Json.num (digitsToNat ds), rest2)
      else none

/-- Parse the comma-separated elements of a non-empty JSON array. -/
def parseElems : Nat → List Char → List Json → Option (Json × List Char)
  | 0, _, _ => none
  | fuel + 1, input, acc =>
    match parseValue fuel input with
    | none => none
    | some (v, rest) =>
      match skipWs rest with
      | ',' :: rest2 => parseElems fuel rest2 (acc ++ [v])
      | ']' :: rest2 => some (Json.arr (acc ++ [v]), rest2)
      | _ => none

/-- Parse the members of a non-empty JSON object. -/
def parseMembers : Nat → List Char → List (String × Json) → Option (Json × List Char)
  | 0, _, _ => none
  | fuel + 1, input, acc =>
    match skipWs input with
    | '"' :: rest =>
      match parseStringChars rest with
      | none => none
      | some (kcs, rest2) =>
        match skipWs rest2 with
        | ':' :: rest3 =>
          match parseValue fuel rest3 with
          | none => none
          | some (v, rest4) =>
            match skipWs rest4 with
            | ',' :: rest5 => parseMembers fuel rest5 (acc ++ [(String.mk kcs, v)])
            | c :: rest5 =>
              if c.toNat = 125 then some (Json.obj (acc ++ [(String.mk kcs, v)]), rest5)
              else none
            | [] => none
        | _ => none
    | _ => none

end

/-- Model of Python's `json.loads`: parse one JSON value and require that only
whitespace follows it; every failure is `none` (a raised `JSONDecodeError`). -/
def jsonLoads (s : String) : Option Json :=
  match parseValue (2 * s.length + 16) s.data with
  | some (v, rest) => if (skipWs rest).isEmpty then some v else none
  | none => none

/-- The validation `isinstance(data, list) and all(isinstance(row, list) for
row in data)` from `_write_range` / `generate_write_range_instruction`. -/
def isListOfLists : Json → Bool
  | Json.arr rows => rows.all (fun r => match r with | Json.arr _ => true | _ => false)
  | _ => false

/-- The rows of a payload that passed `isListOfLists` (non-array rows cannot
occur after that check). -/
def jsonRows : Json → List (List Json)
  | Json.arr rows => rows.map (fun r => match r with | Json.arr xs => xs | _ => [])
  | _ => []

/-- Python's `str()` applied to a single scalar cell value as the spreadsheet
library returns it (numbers come back as floats, hence the trailing `.0`).
Cells never hold arrays or objects. -/
def pyStr : Json → String
  | Json.str s => s
  | Json.num n => toString n ++ ".0"
  | Json.bool true => "True"
  | Json.bool false => "False"
  | Json.null => "None"
  | Json.arr _ => ""
  | Json.obj _ => ""

/-- Python's `repr()` of one cell value inside a list-of-lists rendering
(strings are single-quoted, an empty cell is `None`). -/
def pyReprCell : Option Json → String
  | none => "None"
  | some (Json.str s) => "'" ++ s ++ "'"
  | some v => pyStr v

/-- Python's `str()` of one row of range values. -/
def pyReprRow (row : List (Option Json)) : String :=
  "[" ++ String.intercalate ", " (row.map pyReprCell) ++ "]"

/-- Python's `str()` of a list of lists of range values, as `_read_range`
returns it for a multi-cell range. -/
def pyReprMatrix (m : List (List (Option Json))) : String :=
  "[" ++ String.intercalate ", " (m.map pyReprRow) ++ "]"

/-- Split a maximal alphabetic prefix off the front of the input. -/
def splitLetters : List Char → List Char × List Char
  | c :: cs =>
    if c.isAlpha then
      let (ls, rest) := splitLetters cs
      (c :: ls, rest)
    else ([], c :: cs)
  | [] => ([], [])

/-- One-based column number of an A1-style column-letter run (A=1, Z=26, AA=27). -/
def colIndex (ls : List Char) : Nat :=
  ls.foldl (fun a c => a * 26 + (c.toUpper.toNat - 64)) 0

/-- Parse an A1-style single-cell address (as characters) into zero-based
(row, column); `none` models the exception the spreadsheet library raises on
a malformed address such as `notacell` or `A0`. -/
def parseCellAddrChars (cs : List Char) : Option (Nat × Nat) :=
  let (ls, rest) := splitLetters cs
  let (ds, rest2) := takeDigits rest
  if ls.isEmpty || ds.isEmpty || !rest2.isEmpty then none
  else
    let row := digitsToNat ds
    let col := colIndex ls
    if row = 0 then none else some (row - 1, col - 1)

/-- Parse an A1-style single-cell address into zero-based (row, column). -/
def parseCellAddr (s : String) : Option (Nat × Nat) :=
  parseCellAddrChars s.data

/-- Split a character list at every colon. -/
def splitOnColon : List Char → List (List Char)
  | [] => [[]]
  | c :: rest =>
    let r := splitOnColon rest
    if c = ':' then [] :: r
    else
      match r with
      | h :: t => (c :: h) :: t
      | [] => [[c]]

/-- Parse a bounded range address `A1:B2` into its two corner cells. -/
def parseRangeAddr (s : String) : Option ((Nat × Nat) × (Nat × Nat)) :=
  match splitOnColon s.data with
  | [a, b] =>
    match parseCellAddrChars a, parseCellAddrChars b with
    | some p, some q => some (p, q)
    | _, _ => none
  | _ => none

/-- One worksheet: its name and a partial map from zero-based (row, column)
to the scalar value stored there (`none` is an empty cell). -/
structure Sheet where
  name : String
  cells : Nat → Nat → Option Json

/-- A workbook: its sheets in insertion order (the order `book.sheets`
iterates in). -/
abbrev Book := List Sheet

/-- The comprehension `[s.name for s in book.sheets]`. -/
def sheetNames (book : Book) : List String :=
  book.map (fun s => s.name)

/-- Case-sensitive sheet lookup; `none` exactly when the membership test
`sheet_name not in [s.name for s in book.sheets]` fires. -/
def findSheet (book : Book) (name : String) : Option Sheet :=
  book.find? (fun s => s.name == name)

/-- Store a value in one cell. -/
def setCell (s : Sheet) (r c : Nat) (v : Json) : Sheet :=
  { s with cells := fun r2 c2 => if r2 == r && c2 == c then some v else s.cells r2 c2 }

/-- Write one row of a block left to right starting at column `c`. -/
def writeRow (s : Sheet) (r c : Nat) : List Json → Sheet
  | [] => s
  | v :: vs => writeRow (setCell s r c v) r (c + 1) vs

/-- Write a block of rows top to bottom anchored at (r, c): the model of
`sheet.range(start_cell_address).value = data`. -/
def writeRows (s : Sheet) (r c : Nat) : List (List Json) → Sheet
  | [] => s
  | row :: rest => writeRows (writeRow s r c row) (r + 1) c rest

/-- Apply an in-place mutation of the named sheet to the workbook. -/
def updateSheet (book : Book) (name : String) (f : Sheet → Sheet) : Book :=
  book.map (fun s => if s.name == name then f s else s)

/-- Clear the contents of the rectangle [r1, r2] × [c1, c2]: the model of
`sheet.range(range_address).clear_contents()`. -/
def clearRect (s : Sheet) (r1 c1 r2 c2 : Nat) : Sheet :=
  { s with cells := fun r c =>
      if r1 ≤ r && r ≤ r2 && c1 ≤ c && c ≤ c2 then none else s.cells r c }

/-- The matrix of values of the rectangle [r1, r2] × [c1, c2] of a sheet, in
row-major order, as `sheet.range("..:..").value` returns it. -/
def readMatrix (s : Sheet) (r1 c1 r2 c2 : Nat) : List (List (Option Json)) :=
  (List.range (r2 + 1 - r1)).map (fun i =>
    (List.range (c2 + 1 - c1)).map (fun j => s.cells (r1 + i) (c1 + j)))

/-- The value of a bounded multi-cell range of the named sheet, or `none`
when the sheet is absent or the address malformed. -/
def rangeValue (book : Book) (sheet_name range_address : String) :
    Option (List (List (Option Json))) :=
  match findSheet book sheet_name, parseRangeAddr range_address with
  | some s, some ((r1, c1), (r2, c2)) => some (readMatrix s r1 c1 r2 c2)
  | _, _ => none

/-- The exceptions the guard's `except` clauses distinguish:
`FileNotFoundError` and every other `Exception`. -/
inductive PyExn where
  | fileNotFound (msg : String)
  | excelError (msg : String)

/-- The message the guard builds from a caught exception:
`f"Error: {e}"` for `FileNotFoundError`, `f"An Excel error occurred: {e}"`
for everything else. -/
def pyErrMsg : PyExn → String
  | PyExn.fileNotFound m => "Error: " ++ m
  | PyExn.excelError m => "An Excel error occurred: " ++ m

/-- The fixed workbook path of both direct-execution variants. -/
def EXCEL_FILE_PATH : String := "test.xlsx"

/-- Which handle events happened on the path `safe_excel_operation` took:
whether the application and document handles were opened, whether the
`finally` block closed the document, whether it quit the application, and
whether `book.save()` ran. -/
structure GuardTrace where
  appOpened : Bool
  bookOpened : Bool
  bookClosed : Bool
  appQuit : Bool
  saved : Bool

/-- What one call of the guard produced: its handle trace, the workbook
state it left behind, and the string it returned. -/
structure GuardOutcome where
  trace : GuardTrace
  book : Book
  result : String

/-- Model of `safe_excel_operation` from `src/excel_agnet.py` (lines 23-66).
`fileExists` is the `os.path.exists(EXCEL_FILE_PATH)` test, made after the
application handle is acquired and before the document is opened.  `op` is
the wrapped core function: it receives the open workbook and either returns
a string or raises.  On a raise the `except` clauses format the message; the
`finally` block closes the document whenever one was opened, and leaves the
application handle open on every path (the `pass # app.quit()` branch). -/
def safe_excel_operation (fileExists : Bool) (initial : Book)
    (op : Book → Book × Except PyExn String) : GuardOutcome :=
  if fileExists then
    match op initial with
    | (book2, Except.ok r) =>
      { trace := { appOpened := true, bookOpened := true, bookClosed := true,
                   appQuit := false, saved := true }
        book := book2, result := r }
    | (book2, Except.error e) =>
      { trace := { appOpened := true, bookOpened := true, bookClosed := true,
                   appQuit := false, saved := false }
        book := book2, result := pyErrMsg e }
  else
    { trace := { appOpened := true, bookOpened := false, bookClosed := false,
                 appQuit := false, saved := false }
      book := initial
      result := pyErrMsg (PyExn.fileNotFound ("Excel file not found: " ++ EXCEL_FILE_PATH)) }

/-- The structured value the HTTP variant's guard returns:
`{"status": "success", "result": ...}` or `{"status": "error", "message": ...}`. -/
inductive ApiResult where
  | success (result : String)
  | error (message : String)

/-- What one call of the HTTP variant's guard produced. -/
structure ServiceOutcome where
  trace : GuardTrace
  book : Book
  response : ApiResult

/-- Model of `safe_excel_operation` from `src/backend_service.py` (lines
27-62): identical control flow to the agent variant, but the return value is
wrapped as a status dictionary on every path. -/
def safe_excel_operation_service (fileExists : Bool) (initial : Book)
    (op : Book → Book × Except PyExn String) : ServiceOutcome :=
  if fileExists then
    match op initial with
    | (book2, Except.ok r) =>
      { trace := { appOpened := true, bookOpened := true, bookClosed := true,
                   appQuit := false, saved := true }
        book := book2, response := ApiResult.success r }
    | (book2, Except.error e) =>
      { trace := { appOpened := true, bookOpened := true, bookClosed := true,
                   appQuit := false, saved := false }
        book := book2, response := ApiResult.error (pyErrMsg e) }
  else
    { trace := { appOpened := true, bookOpened := false, bookClosed := false,
                 appQuit := false, saved := false }
      book := initial
      response := ApiResult.error
        (pyErrMsg (PyExn.fileNotFound ("Excel file not found: " ++ EXCEL_FILE_PATH))) }

/-- The text of the exception the spreadsheet library raises for a malformed
address (an external-library artifact: only its existence matters to the
theorems below, never its content). -/
def xlRangeErrText (addr : String) : String :=
  "invalid cell reference " ++ addr

/-- The message `f"Error: Sheet '{sheet_name}' not found."` shared by every
tool's membership check. -/
def sheetNotFoundMsg (sheet_name : String) : String :=
  "Error: Sheet '" ++ (sheet_name ++ "' not found.")

/-- The message `_read_cell` builds when reading raises. -/
def readCellErrMsg (cell_address sheet_name e : String) : String :=
  "Error reading cell " ++ (cell_address ++ " on sheet " ++ sheet_name ++ ": " ++ e)

/-- The message `_write_cell` builds when writing raises. -/
def writeCellErrMsg (cell_address sheet_name e : String) : String :=
  "Error writing to cell " ++ (cell_address ++ " on sheet " ++ sheet_name ++ ": " ++ e)

/-- The message `_read_range` builds when reading raises. -/
def readRangeErrMsg (range_address sheet_name e : String) : String :=
  "Error reading range " ++ (range_address ++ " on sheet " ++ sheet_name ++ ": " ++ e)

/-- The message `_write_range` builds when its JSON payload does not parse. -/
def invalidJsonMsg : String :=
  "Error: The 'values_json' argument is not a valid JSON string."

/-- The message `_write_range` builds when its payload parses but is not a
list of lists. -/
def notListOfListsMsg : String :=
  "Error: The 'values_json' argument must be a valid JSON string representing a list of lists."

/-- The message `_write_range` builds when the write itself raises. -/
def writeRangeErrMsg (start_cell_address sheet_name e : String) : String :=
  "An Excel error occurred during write range to " ++
    (start_cell_address ++ " on " ++ sheet_name ++ ": " ++ e)

/-- The message `_clear_range` builds when clearing raises. -/
def clearRangeErrMsg (range_address sheet_name e : String) : String :=
  "Error clearing range " ++ (range_address ++ " on sheet " ++ sheet_name ++ ": " ++ e)

/-- Model of `_read_cell` (excel_agnet.py lines 80-91, backend_service.py
lines 77-85): sheet membership first, then the address; a `None` cell value
becomes empty text, any other value goes through `str()`; every failure is
caught and returned as a message, so the op never raises. -/
def _read_cell (sheet_name cell_address : String) (book : Book) :
    Book × Except PyExn String :=
  match findSheet book sheet_name with
  | none => (book, Except.ok (sheetNotFoundMsg sheet_name))
  | some sheet =>
    match parseCellAddr cell_address with
    | none =>
      (book, Except.ok (readCellErrMsg cell_address sheet_name (xlRangeErrText cell_address)))
    | some (r, c) =>
      match sheet.cells r c with
      | none => (book, Except.ok "")
      | some v => (book, Except.ok (pyStr v))

/-- Model of `_write_cell` (excel_agnet.py lines 108-118): sheet membership
first, then the address; the value is stored verbatim as text. -/
def _write_cell (sheet_name cell_address value : String) (book : Book) :
    Book × Except PyExn String :=
  match findSheet book sheet_name with
  | none => (book, Except.ok (sheetNotFoundMsg sheet_name))
  | some _ =>
    match parseCellAddr cell_address with
    | none =>
      (book, Except.ok (writeCellErrMsg cell_address sheet_name (xlRangeErrText cell_address)))
    | some (r, c) =>
      (updateSheet book sheet_name (fun s => setCell s r c (Json.str value)),
       Except.ok ("Successfully wrote '" ++ (value ++ "' to cell " ++ cell_address ++
         " on sheet " ++ sheet_name ++ ".")))

/-- Model of `_read_range` (excel_agnet.py lines 134-145): sheet membership
first; a bounded range reads its value matrix and renders it with `str()`,
a single-cell address reads that cell's scalar, and a malformed address is
caught and returned as a message. -/
def _read_range (sheet_name range_address : String) (book : Book) :
    Book × Except PyExn String :=
  match findSheet book sheet_name with
  | none => (book, Except.ok (sheetNotFoundMsg sheet_name))
  | some sheet =>
    match parseRangeAddr range_address with
    | some ((r1, c1), (r2, c2)) =>
      (book, Except.ok (pyReprMatrix (readMatrix sheet r1 c1 r2 c2)))
    | none =>
      match parseCellAddr range_address with
      | some (r, c) =>
        (book, Except.ok (match sheet.cells r c with
          | none => "None"
          | some v => pyStr v))
      | none =>
        (book, Except.ok (readRangeErrMsg range_address sheet_name (xlRangeErrText range_address)))

/-- Model of `_write_range` (excel_agnet.py lines 162-182): `json.loads`
first, then the list-of-lists validation, then sheet membership, then the
block write anchored at the start address.  Both validations precede any
write, but they run inside the wrapped op — after the guard has already
opened the document. -/
def _write_range (sheet_name start_cell_address values_json : String) (book : Book) :
    Book × Except PyExn String :=
  match jsonLoads values_json with
  | none => (book, Except.ok invalidJsonMsg)
  | some data =>
    if isListOfLists data then
      match findSheet book sheet_name with
      | none => (book, Except.ok (sheetNotFoundMsg sheet_name))
      | some _ =>
        match parseCellAddr start_cell_address with
        | none =>
          (book, Except.ok (writeRangeErrMsg start_cell_address sheet_name
            (xlRangeErrText start_cell_address)))
        | some (r, c) =>
          (updateSheet book sheet_name (fun s => writeRows s r c (jsonRows data)),
           Except.ok ("Successfully wrote data starting at cell " ++
             (start_cell_address ++ " on sheet " ++ sheet_name ++ ".")))
    else (book, Except.ok notListOfListsMsg)

/-- Model of `_get_sheet_names` (excel_agnet.py lines 194-200,
backend_service.py lines 175-180): the comma-join of the sheet names in the
workbook's own order, or the explicit no-sheets message for an empty
workbook (`", ".join(sheet_names) if sheet_names else "No sheets found."`). -/
def _get_sheet_names (book : Book) : Book × Except PyExn String :=
  (book,
   Except.ok (if (sheetNames book).isEmpty then "No sheets found."
              else String.intercalate ", " (sheetNames book)))

/-- Model of `_clear_range` (excel_agnet.py lines 216-224): sheet membership
first, then clear the contents of the addressed rectangle (or single cell). -/
def _clear_range (sheet_name range_address : String) (book : Book) :
    Book × Except PyExn String :=
  match findSheet book sheet_name with
  | none => (book, Except.ok (sheetNotFoundMsg sheet_name))
  | some _ =>
    match parseRangeAddr range_address with
    | some ((r1, c1), (r2, c2)) =>
      (updateSheet book sheet_name (fun s => clearRect s r1 c1 r2 c2),
       Except.ok ("Successfully cleared content from range " ++
         (range_address ++ " on sheet " ++ sheet_name ++ ".")))
    | none =>
      match parseCellAddr range_address with
      | some (r, c) =>
        (updateSheet book sheet_name (fun s => clearRect s r c r c),
         Except.ok ("Successfully cleared content from range " ++
           (range_address ++ " on sheet " ++ sheet_name ++ ".")))
      | none =>
        (book, Except.ok (clearRangeErrMsg range_address sheet_name
          (xlRangeErrText range_address)))

/-- The tool `read_cell_value`: the guard applied to `_read_cell`. -/
def read_cell_value (fileExists : Bool) (book : Book)
    (sheet_name cell_address : String) : GuardOutcome :=
  safe_excel_operation fileExists book (_read_cell sheet_name cell_address)

/-- The tool `write_cell_value`: the guard applied to `_write_cell`. -/
def write_cell_value (fileExists : Bool) (book : Book)
    (sheet_name cell_address value : String) : GuardOutcome :=
  safe_excel_operation fileExists book (_write_cell sheet_name cell_address value)

/-- The tool `read_range_values`: the guard applied to `_read_range`. -/
def read_range_values (fileExists : Bool) (book : Book)
    (sheet_name range_address : String) : GuardOutcome :=
  safe_excel_operation fileExists book (_read_range sheet_name range_address)

/-- The tool `write_range_values`: the guard applied to `_write_range`. -/
def write_range_values (fileExists : Bool) (book : Book)
    (sheet_name start_cell_address values_json : String) : GuardOutcome :=
  safe_excel_operation fileExists book (_write_range sheet_name start_cell_address values_json)

/-- The tool `get_sheet_names`: the guard applied to `_get_sheet_names`. -/
def get_sheet_names (fileExists : Bool) (book : Book) : GuardOutcome :=
  safe_excel_operation fileExists book _get_sheet_names

/-- The tool `clear_range_content`: the guard applied to `_clear_range`. -/
def clear_range_content (fileExists : Bool) (book : Book)
    (sheet_name range_address : String) : GuardOutcome :=
  safe_excel_operation fileExists book (_clear_range sheet_name range_address)

/-- A value stored in one field of an instruction dictionary: a string, or —
for `write_range`'s `values` field — the parsed JSON payload. -/
inductive FieldVal where
  | s (v : String)
  | jsonData (v : Json)

/-- An instruction dictionary of the delegated-execution variant: its fields
in insertion order. -/
abbrev Instruction := List (String × FieldVal)

/-- Model of `generate_read_cell_instruction` (backend_service_llamaindex
lines 49-56). -/
def generate_read_cell_instruction (workbook_name sheet_name cell_address : String) :
    Instruction :=
  [("action", FieldVal.s "read_cell"),
   ("workbook_name", FieldVal.s workbook_name),
   ("sheet_name", FieldVal.s sheet_name),
   ("cell_address", FieldVal.s cell_address)]

/-- Model of `generate_write_cell_instruction` (lines 58-66). -/
def generate_write_cell_instruction (workbook_name sheet_name cell_address value : String) :
    Instruction :=
  [("action", FieldVal.s "write_cell"),
   ("workbook_name", FieldVal.s workbook_name),
   ("sheet_name", FieldVal.s sheet_name),
   ("cell_address", FieldVal.s cell_address),
   ("value", FieldVal.s value)]

/-- Model of `generate_read_range_instruction` (lines 68-75). -/
def generate_read_range_instruction (workbook_name sheet_name range_address : String) :
    Instruction :=
  [("action", FieldVal.s "read_range"),
   ("workbook_name", FieldVal.s workbook_name),
   ("sheet_name", FieldVal.s sheet_name),
   ("range_address", FieldVal.s range_address)]

/-- Model of `generate_write_range_instruction` (lines 77-97): the same JSON
and list-of-lists validation as `_write_range`, but producing an `error`
instruction instead of a message string on failure. -/
def generate_write_range_instruction
    (workbook_name sheet_name start_cell_address values_json : String) : Instruction :=
  match jsonLoads values_json with
  | none =>
    [("action", FieldVal.s "error"),
     ("message", FieldVal.s "Error: The provided data for writing range is not a valid JSON string.")]
  | some data =>
    if isListOfLists data then
      [("action", FieldVal.s "write_range"),
       ("workbook_name", FieldVal.s workbook_name),
       ("sheet_name", FieldVal.s sheet_name),
       ("start_cell_address", FieldVal.s start_cell_address),
       ("values", FieldVal.jsonData data)]
    else
      [("action", FieldVal.s "error"),
       ("message", FieldVal.s "Error: The provided data for writing range is not a valid JSON list of lists.")]

/-- Model of `generate_get_sheet_names_instruction` (lines 99-104). -/
def generate_get_sheet_names_instruction (workbook_name : String) : Instruction :=
  [("action", FieldVal.s "get_sheet_names"),
   ("workbook_name", FieldVal.s workbook_name)]

/-- Model of `generate_clear_range_content_instruction` (lines 106-113). -/
def generate_clear_range_content_instruction
    (workbook_name sheet_name range_address : String) : Instruction :=
  [("action", FieldVal.s "clear_range_content"),
   ("workbook_name", FieldVal.s workbook_name),
   ("sheet_name", FieldVal.s sheet_name),
   ("range_address", FieldVal.s range_address)]

/-- Model of `generate_inform_user_instruction` (lines 115-120). -/
def generate_inform_user_instruction (message : String) : Instruction :=
  [("action", FieldVal.s "inform_user"),
   ("message", FieldVal.s message)]

/-- Model of `generate_create_bar_chart_instruction` (lines 124-133). -/
def generate_create_bar_chart_instruction
    (workbook_name sheet_name data_range chart_title destination_cell : String) : Instruction :=
  [("action", FieldVal.s "create_bar_chart"),
   ("workbook_name", FieldVal.s workbook_name),
   ("sheet_name", FieldVal.s sheet_name),
   ("data_range", FieldVal.s data_range),
   ("chart_title", FieldVal.s chart_title),
   ("destination_cell", FieldVal.s destination_cell)]

/-- Model of `generate_write_formula_instruction` (lines 135-143). -/
def generate_write_formula_instruction
    (workbook_name sheet_name cell_address formula : String) : Instruction :=
  [("action", FieldVal.s "write_formula"),
   ("workbook_name", FieldVal.s workbook_name),
   ("sheet_name", FieldVal.s sheet_name),
   ("cell_address", FieldVal.s cell_address),
   ("formula", FieldVal.s formula)]

/-- Model of `generate_apply_conditional_formatting_instruction` (lines 145-156). -/
def generate_apply_conditional_formatting_instruction
    (workbook_name sheet_name range_address condition format_type : String) : Instruction :=
  [("action", FieldVal.s "apply_conditional_formatting"),
   ("workbook_name", FieldVal.s workbook_name),
   ("sheet_name", FieldVal.s sheet_name),
   ("range_address", FieldVal.s range_address),
   ("condition", FieldVal.s condition),
   ("format_type", FieldVal.s format_type)]

/-- Model of `generate_create_pivot_table_instruction` (lines 158-172). -/
def generate_create_pivot_table_instruction
    (workbook_name source_sheet source_range dest_sheet dest_cell row_field value_field function : String) :
    Instruction :=
  [("action", FieldVal.s "create_pivot_table"),
   ("workbook_name", FieldVal.s workbook_name),
   ("source_sheet", FieldVal.s source_sheet),
   ("source_range", FieldVal.s source_range),
   ("dest_sheet", FieldVal.s dest_sheet),
   ("dest_cell", FieldVal.s dest_cell),
   ("row_field", FieldVal.s row_field),
   ("value_field", FieldVal.s value_field),
   ("function", FieldVal.s function)]

/-- What a LlamaIndex source slot can hold where the extraction loop looks
for a tool output: an instruction dictionary, or something that is not a
dictionary (`isinstance(tool_output_result, dict)` fails). -/
inductive SourceVal where
  | dict (d : Instruction)
  | nonDict

/-- One entry of `response_obj.sources`: its `raw_output` attribute (when
present and not `None`) and its `metadata['tool_output']` entry (when
present and not `None`). -/
structure AgentSource where
  raw_output : Option SourceVal
  metadata_tool_output : Option SourceVal

/-- The `tool_output_result` a loop iteration extracts from one source:
`raw_output` when it is present and not `None`, else the metadata entry
(handle_excel_command lines 309-319). -/
def toolOutputResult (src : AgentSource) : Option SourceVal :=
  match src.raw_output with
  | some v => some v
  | none => src.metadata_tool_output

/-- Python's `instruction.get("action")`: the value of the `action` key, or
`None` when absent. -/
def instrAction (d : Instruction) : Option FieldVal :=
  (d.find? (fun kv => kv.1 == "action")).map (fun kv => kv.2)

/-- Python's `instruction.get("action") == "inform_user"`: whether the
`action` field is present and holds exactly the string `"inform_user"` (a
missing key compares as `None`, which is not equal to it). -/
def isInformUserAction : Option FieldVal → Bool
  | some (FieldVal.s a) => a == "inform_user"
  | _ => false

/-- The source-iteration loop of `handle_excel_command` (lines 305-330):
walk the sources in order keeping the last dictionary tool output seen;
on the first one whose `action` is not `"inform_user"` stop at once and
keep it (the break that makes a concrete instruction win over a fallback). -/
def extractToolOutput : List AgentSource → Option Instruction → Option Instruction
  | [], acc => acc
  | src :: rest, acc =>
    match toolOutputResult src with
    | some (SourceVal.dict d) =>
      if isInformUserAction (instrAction d) then
        extractToolOutput rest (some d)
      else some d
    | _ => extractToolOutput rest acc

/-- The fallbacks of `handle_excel_command` (lines 335-343) when no usable
dictionary tool output was extracted: wrap a truthy (non-empty) agent text
response as `inform_user`, otherwise the fixed `error` instruction. -/
def fallbackInstruction : Option String → Instruction
  | some t =>
    if t.isEmpty then
      [("action", FieldVal.s "error"),
       ("message", FieldVal.s "Backend failed to generate a valid instruction.")]
    else
      [("action", FieldVal.s "inform_user"), ("message", FieldVal.s t)]
  | none =>
    [("action", FieldVal.s "error"),
     ("message", FieldVal.s "Backend failed to generate a valid instruction.")]

/-- The instruction `handle_excel_command` returns (lines 300-357), given
the agent response's sources and its optional final text: the extracted
tool output when one was found and is truthy (a non-empty dictionary),
else the fallback. -/
def handle_excel_command (sources : List AgentSource) (responseText : Option String) :
    Instruction :=
  match extractToolOutput sources none with
  | some d => if d.isEmpty then fallbackInstruction responseText else d
  | none => fallbackInstruction responseText

/-- A one-sheet test workbook with every cell empty. -/
def sheet1 : Sheet :=
  { name := "Sheet1", cells := fun _ _ => none }

/-- The workbook holding exactly `sheet1`. -/
def book1 : Book := [sheet1]

/-- A workbook whose sheets are deliberately not in alphabetical order. -/
def book21 : Book :=
  [{ name := "Sheet2", cells := fun _ _ => none },
   { name := "Sheet1", cells := fun _ _ => none }]

/-- A fault-injected wrapped operation: it mutates a cell and then raises,
the shape of failure the Session Guard claim quantifies over. -/
def faultyOp (book : Book) : Book × Except PyExn String :=
  (updateSheet book "Sheet1" (fun s => setCell s 0 0 (Json.str "partial")),
   Except.error (PyExn.excelError "boom"))

/-- The round-trip payload `[["a","b"],["c","d"]]` as its JSON source text. -/
def roundTripPayload : String := "[[\"a\",\"b\"],[\"c\",\"d\"]]"

/-- A ragged payload: valid JSON, a list of lists, rows of unequal length. -/
def raggedPayload : String := "[[\"a\"],[\"b\",\"c\"]]"

/-- Two strings differing within their first `n` characters are different. -/
theorem strTakeNe (n : Nat) (a b : String)
    (h : a.data.take n ≠ b.data.take n) : a ≠ b :=
  fun e => h (by rw [e])

/-- Storing a cell value leaves the sheet's name unchanged. -/
theorem setCell_name (s : Sheet) (r c : Nat) (v : Json) :
    (setCell s r c v).name = s.name := rfl

/-- Writing one row leaves the sheet's name unchanged. -/
theorem writeRow_name (vs : List Json) (r c : Nat) (s : Sheet) :
    (writeRow s r c vs).name = s.name := by
  induction vs generalizing s c with
  | nil => rfl
  | cons v vs ih => simpa [writeRow] using ih _ (setCell s r c v)

/-- Writing a block leaves the sheet's name unchanged. -/
theorem writeRows_name (rows : List (List Json)) (r c : Nat) (s : Sheet) :
    (writeRows s r c rows).name = s.name := by
  induction rows generalizing s r with
  | nil => rfl
  | cons row rest ih =>
    calc (writeRows (writeRow s r c row) (r + 1) c rest).name
        = (writeRow s r c row).name := ih _ _
      _ = s.name := writeRow_name _ _ _ _

/-- Looking the named sheet up after mutating it in place finds the mutated
sheet, for any name-preserving mutation. -/
theorem findSheet_updateSheet (book : Book) (name : String) (f : Sheet → Sheet)
    (hf : ∀ s, (f s).name = s.name) :
    findSheet (updateSheet book name f) name = (findSheet book name).map f := by
  induction book with
  | nil => rfl
  | cons s rest ih =>
    by_cases h : s.name == name
    · simp only [updateSheet, List.map_cons, findSheet, List.find?_cons, h, if_pos]
      have : ((f s).name == name) = true := by rw [hf s]; exact h
      simp [this, h]
    · have h2 : (s.name == name) = false := by simpa using h
      simp only [updateSheet, List.map_cons, findSheet, List.find?_cons, h2, if_neg,
        Bool.false_eq_true, not_false_iff]
      simp only [findSheet, updateSheet] at ih
      simpa [h2] using ih

/-- C1, counterexample: the WriteRange call with the literal payload
`not valid json` does return the invalid-JSON error message, but the
document handle IS opened — refuting the claim that the validation happens
before any spreadsheet I/O and that the document is never opened. -/
theorem C1_counterexample :
    (write_range_values true book1 "Sheet1" "A1" "not valid json").result = invalidJsonMsg
  ∧ (write_range_values true book1 "Sheet1" "A1" "not valid json").trace.bookOpened = true :=
  ⟨rfl, rfl⟩

/-- C1, amended: for every workbook and every WriteRange payload that is not
valid JSON, the operation returns the invalid-JSON error message and writes
nothing, but the document is opened first — the validation runs inside the
wrapped operation, after the guard has opened the document, not before any
spreadsheet I/O. -/
theorem C1_amended (book : Book) (sheet_name start_cell_address payload : String)
    (h : jsonLoads payload = none) :
    (write_range_values true book sheet_name start_cell_address payload).result = invalidJsonMsg
  ∧ (write_range_values true book sheet_name start_cell_address payload).book = book
  ∧ (write_range_values true book sheet_name start_cell_address payload).trace.bookOpened = true := by
  unfold write_range_values safe_excel_operation _write_range
  rw [h]
  exact ⟨rfl, rfl, rfl⟩

/-- C1, witness: the amended claim instantiated at the literal payload
`not valid json` on the concrete one-sheet workbook. -/
theorem C1_amended_witness :
    (write_range_values true book1 "Sheet1" "A1" "not valid json").result = invalidJsonMsg
  ∧ (write_range_values true book1 "Sheet1" "A1" "not valid json").book = book1
  ∧ (write_range_values true book1 "Sheet1" "A1" "not valid json").trace.bookOpened = true :=
  C1_amended book1 "Sheet1" "A1" "not valid json" rfl

/-- C2, counterexample: on a fault-injected operation that mutates state and
then raises, the guard closes the document handle but does not release the
application handle (the `finally` block deliberately skips `app.quit()`) —
refuting the claim that both handles are released on every exit path. -/
theorem C2_counterexample :
    (safe_excel_operation true book1 faultyOp).trace.bookClosed = true
  ∧ (safe_excel_operation true book1 faultyOp).trace.appQuit = false :=
  ⟨rfl, rfl⟩

/-- C2, amended: for every invocation of either variant of
`safe_excel_operation`, on every exit path — success, the missing-file path,
or an exception raised by the wrapped operation — the document handle is
released whenever it was opened, but the application handle is never
released (the commented-out `app.quit()`). -/
theorem C2_amended (fileExists : Bool) (initial : Book)
    (op : Book → Book × Except PyExn String) :
    ((safe_excel_operation fileExists initial op).trace.bookOpened = true →
      (safe_excel_operation fileExists initial op).trace.bookClosed = true)
  ∧ (safe_excel_operation fileExists initial op).trace.appQuit = false
  ∧ ((safe_excel_operation_service fileExists initial op).trace.bookOpened = true →
      (safe_excel_operation_service fileExists initial op).trace.bookClosed = true)
  ∧ (safe_excel_operation_service fileExists initial op).trace.appQuit = false := by
  unfold safe_excel_operation safe_excel_operation_service
  cases fileExists
  · simp
  · rcases hop : op initial with ⟨b2, r⟩
    cases r <;> simp [hop]

/-- C2, witness: the amended claim instantiated at the fault-injected
operation on the concrete one-sheet workbook. -/
theorem C2_amended_witness :
    ((safe_excel_operation true book1 faultyOp).trace.bookOpened = true →
      (safe_excel_operation true book1 faultyOp).trace.bookClosed = true)
  ∧ (safe_excel_operation true book1 faultyOp).trace.appQuit = false
  ∧ ((safe_excel_operation_service true book1 faultyOp).trace.bookOpened = true →
      (safe_excel_operation_service true book1 faultyOp).trace.bookClosed = true)
  ∧ (safe_excel_operation_service true book1 faultyOp).trace.appQuit = false :=
  C2_amended true book1 faultyOp

/-- C3: for every workbook containing the named sheet, writing the block
`[["a","b"],["c","d"]]` via WriteRange anchored at A1 and then reading the
range A1:B2 back returns the same values in the same row/column order. -/
theorem C3_roundtrip (book : Book) (sh : String) (s0 : Sheet)
    (h : findSheet book sh = some s0) :
    rangeValue (write_range_values true book sh "A1" roundTripPayload).book sh "A1:B2"
      = some [[some (Json.str "a"), some (Json.str "b")],
              [some (Json.str "c"), some (Json.str "d")]] := by
  unfold write_range_values safe_excel_operation _write_range
  rw [show jsonLoads roundTripPayload
      = some (Json.arr [Json.arr [Json.str "a", Json.str "b"],
                        Json.arr [Json.str "c", Json.str "d"]]) from rfl]
  rw [h]
  have hupd : findSheet (updateSheet book sh (fun s => writeRows s 0 0
        [[Json.str "a", Json.str "b"], [Json.str "c", Json.str "d"]])) sh
      = some (writeRows s0 0 0 [[Json.str "a", Json.str "b"], [Json.str "c", Json.str "d"]]) := by
    rw [findSheet_updateSheet book sh _ (fun s => writeRows_name _ _ _ _), h]
    rfl
  show rangeValue (updateSheet book sh (fun s => writeRows s 0 0
        [[Json.str "a", Json.str "b"], [Json.str "c", Json.str "d"]])) sh "A1:B2" = _
  unfold rangeValue
  rw [hupd]
  rfl

/-- C3, witness: the round trip on the concrete empty one-sheet workbook. -/
theorem C3_roundtrip_witness :
    rangeValue (write_range_values true book1 "Sheet1" "A1" roundTripPayload).book
        "Sheet1" "A1:B2"
      = some [[some (Json.str "a"), some (Json.str "b")],
              [some (Json.str "c"), some (Json.str "d")]] :=
  C3_roundtrip book1 "Sheet1" sheet1 rfl

/-- C4: every action referencing a sheet name absent from the workbook's
sheet collection fails with the SheetNotFound message (shown for the two
cited tools, ReadCell and ClearRange), a present sheet with a malformed
address fails with the distinct invalid-address message instead, and the
SheetNotFound message is never equal to either invalid-address message, for
any sheet name, address and library error text — the two conditions are
never collapsed into one string. -/
theorem C4_sheet_not_found (book : Book) (sheet_name range_address : String)
    (h : findSheet book sheet_name = none) :
    (read_cell_value true book sheet_name range_address).result = sheetNotFoundMsg sheet_name
  ∧ (clear_range_content true book sheet_name range_address).result = sheetNotFoundMsg sheet_name
  ∧ (∀ (book2 : Book) (s0 : Sheet), findSheet book2 sheet_name = some s0 →
      parseCellAddr range_address = none →
      (read_cell_value true book2 sheet_name range_address).result
        = readCellErrMsg range_address sheet_name (xlRangeErrText range_address))
  ∧ (∀ addr sh e, sheetNotFoundMsg sh ≠ readCellErrMsg addr sh e)
  ∧ (∀ addr sh e, sheetNotFoundMsg sh ≠ clearRangeErrMsg addr sh e) := by
  refine ⟨?_, ?_, ?_, ?_, ?_⟩
  · unfold read_cell_value safe_excel_operation _read_cell
    rw [h]
    rfl
  · unfold clear_range_content safe_excel_operation _clear_range
    rw [h]
    rfl
  · intro book2 s0 hs ha
    unfold read_cell_value safe_excel_operation _read_cell
    rw [hs, ha]
    rfl
  · intro addr sh e
    apply strTakeNe 6
    unfold sheetNotFoundMsg readCellErrMsg
    simp only [String.data_append]
    rw [List.take_append_of_le_length (by decide), List.take_append_of_le_length (by decide)]
    decide
  · intro addr sh e
    apply strTakeNe 6
    unfold sheetNotFoundMsg clearRangeErrMsg
    simp only [String.data_append]
    rw [List.take_append_of_le_length (by decide), List.take_append_of_le_length (by decide)]
    decide

/-- C4, witness: the absent-sheet behaviour at the concrete sheet name
`Nope` on the one-sheet workbook. -/
theorem C4_sheet_not_found_witness :
    (read_cell_value true book1 "Nope" "A1").result = sheetNotFoundMsg "Nope"
  ∧ (clear_range_content true book1 "Nope" "A1").result = sheetNotFoundMsg "Nope" :=
  ⟨(C4_sheet_not_found book1 "Nope" "A1" rfl).1,
   (C4_sheet_not_found book1 "Nope" "A1" rfl).2.1⟩

/-- C5: when a resolver response carries two dictionary tool outputs, one an
`inform_user` fallback and one a concrete action, the extraction logic of
`handle_excel_command` returns the concrete one — in either arrival order. -/
theorem C5_concrete_over_inform (d1 d2 : Instruction) (a : String)
    (h1 : instrAction d1 = some (FieldVal.s "inform_user"))
    (h2 : instrAction d2 = some (FieldVal.s a))
    (ha : a ≠ "inform_user") (responseText : Option String) :
    handle_excel_command
      [{ raw_output := some (SourceVal.dict d1), metadata_tool_output := none },
       { raw_output := some (SourceVal.dict d2), metadata_tool_output := none }]
      responseText = d2
  ∧ handle_excel_command
      [{ raw_output := some (SourceVal.dict d2), metadata_tool_output := none },
       { raw_output := some (SourceVal.dict d1), metadata_tool_output := none }]
      responseText = d2 := by
  have hne : d2.isEmpty = false := by
    cases d2 with
    | nil => simp [instrAction] at h2
    | cons kv t => rfl
  have hia1 : isInformUserAction (instrAction d1) = true := by
    rw [h1]; simp [isInformUserAction]
  have hia2 : isInformUserAction (instrAction d2) = false := by
    rw [h2]; simpa [isInformUserAction] using ha
  constructor
  · unfold handle_excel_command
    rw [show extractToolOutput
        [{ raw_output := some (SourceVal.dict d1), metadata_tool_output := none },
         { raw_output := some (SourceVal.dict d2), metadata_tool_output := none }] none
        = some d2 from by
      simp [extractToolOutput, toolOutputResult, hia1, hia2]]
    simp [hne]
  · unfold handle_excel_command
    rw [show extractToolOutput
        [{ raw_output := some (SourceVal.dict d2), metadata_tool_output := none },
         { raw_output := some (SourceVal.dict d1), metadata_tool_output := none }] none
        = some d2 from by
      simp [extractToolOutput, toolOutputResult, hia1, hia2]]
    simp [hne]

/-- C5, witness: an `inform_user` instruction alongside a concrete
`read_cell` instruction, in both orders. -/
theorem C5_concrete_over_inform_witness :
    handle_excel_command
      [{ raw_output := some (SourceVal.dict (generate_inform_user_instruction "hi")),
         metadata_tool_output := none },
       { raw_output := some (SourceVal.dict (generate_read_cell_instruction "wb" "Sheet1" "A1")),
         metadata_tool_output := none }] none
      = generate_read_cell_instruction "wb" "Sheet1" "A1"
  ∧ handle_excel_command
      [{ raw_output := some (SourceVal.dict (generate_read_cell_instruction "wb" "Sheet1" "A1")),
         metadata_tool_output := none },
       { raw_output := some (SourceVal.dict (generate_inform_user_instruction "hi")),
         metadata_tool_output := none }] none
      = generate_read_cell_instruction "wb" "Sheet1" "A1" :=
  C5_concrete_over_inform (generate_inform_user_instruction "hi")
    (generate_read_cell_instruction "wb" "Sheet1" "A1") "read_cell" rfl rfl
    (by decide) none

/-- C6, counterexample: the ragged payload `[["a"],["b","c"]]` — valid JSON,
a list of lists, rows of unequal length — does not fail: the write succeeds
and the second row's second cell is written, refuting the claim that every
non-rectangular payload fails before any write. -/
theorem C6_counterexample :
    (write_range_values true book1 "Sheet1" "A1" raggedPayload).result
      = "Successfully wrote data starting at cell A1 on sheet Sheet1."
  ∧ ((findSheet (write_range_values true book1 "Sheet1" "A1" raggedPayload).book "Sheet1").map
       (fun s => s.cells 1 1)) = some (some (Json.str "c")) :=
  ⟨rfl, rfl⟩

/-- C6, amended: a WriteRange payload that is valid JSON but not a list of
lists fails before any write is attempted — the workbook is left unchanged
and the delegated variant emits the `error` instruction — but rectangularity
is never checked: ragged lists of lists pass the validation and are
written. -/
theorem C6_amended (book : Book) (sheet_name start_cell_address payload workbook_name : String)
    (d : Json) (hp : jsonLoads payload = some d) (hd : isListOfLists d = false) :
    (write_range_values true book sheet_name start_cell_address payload).result = notListOfListsMsg
  ∧ (write_range_values true book sheet_name start_cell_address payload).book = book
  ∧ generate_write_range_instruction workbook_name sheet_name start_cell_address payload
      = [("action", FieldVal.s "error"),
         ("message", FieldVal.s "Error: The provided data for writing range is not a valid JSON list of lists.")] := by
  unfold write_range_values safe_excel_operation _write_range generate_write_range_instruction
  simp only [hp]
  rw [hd]
  exact ⟨rfl, rfl, rfl⟩

/-- C6, witness: the amended claim instantiated at the payload `[1, 2]`,
valid JSON that is not a list of lists. -/
theorem C6_amended_witness :
    (write_range_values true book1 "Sheet1" "A1" "[1, 2]").result = notListOfListsMsg
  ∧ (write_range_values true book1 "Sheet1" "A1" "[1, 2]").book = book1
  ∧ generate_write_range_instruction "wb" "Sheet1" "A1" "[1, 2]"
      = [("action", FieldVal.s "error"),
         ("message", FieldVal.s "Error: The provided data for writing range is not a valid JSON list of lists.")] :=
  C6_amended book1 "Sheet1" "A1" "[1, 2]" "wb" (Json.arr [Json.num 1, Json.num 2]) rfl rfl

/-- C7: for every workbook, ListSheets returns the sheet names comma-joined
in the workbook's own (insertion) order — never re-sorted — and a workbook
with no sheets yields the explicit `No sheets found.` result instead of an
empty sequence. -/
theorem C7_list_sheets (book : Book) :
    (sheetNames book = [] → (get_sheet_names true book).result = "No sheets found.")
  ∧ (sheetNames book ≠ [] →
      (get_sheet_names true book).result = String.intercalate ", " (sheetNames book)) := by
  unfold get_sheet_names safe_excel_operation _get_sheet_names
  constructor
  · intro h
    rw [h]
    rfl
  · intro h
    have he : (sheetNames book).isEmpty = false := by
      cases hn : sheetNames book with
      | nil => exact absurd hn h
      | cons x xs => rfl
    rw [he]
    rfl

/-- C7, witness: a workbook whose sheets are deliberately in
non-alphabetical order comes back in that order, and the empty workbook
yields the explicit no-sheets result. -/
theorem C7_list_sheets_witness :
    (get_sheet_names true book21).result = "Sheet2, Sheet1"
  ∧ (get_sheet_names true []).result = "No sheets found." :=
  ⟨by rw [(C7_list_sheets book21).2 (by decide)]; rfl, (C7_list_sheets []).1 rfl⟩

/-- C8: every instruction the delegated-execution variant produces uses
exactly the action tag strings and exactly the field names, in order, of the
wire-contract table (read_cell, write_cell, read_range, write_range,
get_sheet_names, clear_range_content, inform_user, create_bar_chart,
write_formula, apply_conditional_formatting, create_pivot_table, error). -/
theorem C8_wire_contract :
    (∀ wb sh ca, generate_read_cell_instruction wb sh ca
      = [("action", FieldVal.s "read_cell"), ("workbook_name", FieldVal.s wb),
         ("sheet_name", FieldVal.s sh), ("cell_address", FieldVal.s ca)])
  ∧ (∀ wb sh ca v, generate_write_cell_instruction wb sh ca v
      = [("action", FieldVal.s "write_cell"), ("workbook_name", FieldVal.s wb),
         ("sheet_name", FieldVal.s sh), ("cell_address", FieldVal.s ca), ("value", FieldVal.s v)])
  ∧ (∀ wb sh ra, generate_read_range_instruction wb sh ra
      = [("action", FieldVal.s "read_range"), ("workbook_name", FieldVal.s wb),
         ("sheet_name", FieldVal.s sh), ("range_address", FieldVal.s ra)])
  ∧ (∀ wb, generate_get_sheet_names_instruction wb
      = [("action", FieldVal.s "get_sheet_names"), ("workbook_name", FieldVal.s wb)])
  ∧ (∀ wb sh ra, generate_clear_range_content_instruction wb sh ra
      = [("action", FieldVal.s "clear_range_content"), ("workbook_name", FieldVal.s wb),
         ("sheet_name", FieldVal.s sh), ("range_address", FieldVal.s ra)])
  ∧ (∀ m, generate_inform_user_instruction m
      = [("action", FieldVal.s "inform_user"), ("message", FieldVal.s m)])
  ∧ (∀ wb sh dr ct dc, generate_create_bar_chart_instruction wb sh dr ct dc
      = [("action", FieldVal.s "create_bar_chart"), ("workbook_name", FieldVal.s wb),
         ("sheet_name", FieldVal.s sh), ("data_range", FieldVal.s dr),
         ("chart_title", FieldVal.s ct), ("destination_cell", FieldVal.s dc)])
  ∧ (∀ wb sh ca f, generate_write_formula_instruction wb sh ca f
      = [("action", FieldVal.s "write_formula"), ("workbook_name", FieldVal.s wb),
         ("sheet_name", FieldVal.s sh), ("cell_address", FieldVal.s ca), ("formula", FieldVal.s f)])
  ∧ (∀ wb sh ra cnd ft, generate_apply_conditional_formatting_instruction wb sh ra cnd ft
      = [("action", FieldVal.s "apply_conditional_formatting"), ("workbook_name", FieldVal.s wb),
         ("sheet_name", FieldVal.s sh), ("range_address", FieldVal.s ra),
         ("condition", FieldVal.s cnd), ("format_type", FieldVal.s ft)])
  ∧ (∀ wb ss sr ds dc rf vf fn, generate_create_pivot_table_instruction wb ss sr ds dc rf vf fn
      = [("action", FieldVal.s "create_pivot_table"), ("workbook_name", FieldVal.s wb),
         ("source_sheet", FieldVal.s ss), ("source_range", FieldVal.s sr),
         ("dest_sheet", FieldVal.s ds), ("dest_cell", FieldVal.s dc),
         ("row_field", FieldVal.s rf), ("value_field", FieldVal.s vf),
         ("function", FieldVal.s fn)])
  ∧ (∀ wb sh st vj d, jsonLoads vj = some d → isListOfLists d = true →
      generate_write_range_instruction wb sh st vj
        = [("action", FieldVal.s "write_range"), ("workbook_name", FieldVal.s wb),
           ("sheet_name", FieldVal.s sh), ("start_cell_address", FieldVal.s st),
           ("values", FieldVal.jsonData d)])
  ∧ (∀ wb sh st vj, jsonLoads vj = none →
      generate_write_range_instruction wb sh st vj
        = [("action", FieldVal.s "error"),
           ("message", FieldVal.s "Error: The provided data for writing range is not a valid JSON string.")]) := by
  refine ⟨fun _ _ _ => rfl, fun _ _ _ _ => rfl, fun _ _ _ => rfl, fun _ => rfl,
    fun _ _ _ => rfl, fun _ => rfl, fun _ _ _ _ _ => rfl, fun _ _ _ _ => rfl,
    fun _ _ _ _ _ => rfl, fun _ _ _ _ _ _ _ _ => rfl, ?_, ?_⟩
  · intro wb sh st vj d hp hd
    unfold generate_write_range_instruction
    simp only [hp]
    rw [hd]
    rfl
  · intro wb sh st vj hp
    unfold generate_write_range_instruction
    rw [hp]

/-- C8, witness: the conditional `write_range` and `error` shapes at
concrete payloads. -/
theorem C8_wire_contract_witness :
    generate_write_range_instruction "wb" "Sheet1" "A1" roundTripPayload
      = [("action", FieldVal.s "write_range"), ("workbook_name", FieldVal.s "wb"),
         ("sheet_name", FieldVal.s "Sheet1"), ("start_cell_address", FieldVal.s "A1"),
         ("values", FieldVal.jsonData (Json.arr [Json.arr [Json.str "a", Json.str "b"],
                                                 Json.arr [Json.str "c", Json.str "d"]]))]
  ∧ generate_write_range_instruction "wb" "Sheet1" "A1" "not valid json"
      = [("action", FieldVal.s "error"),
         ("message", FieldVal.s "Error: The provided data for writing range is not a valid JSON string.")] :=
  ⟨C8_wire_contract.2.2.2.2.2.2.2.2.2.2.1 "wb" "Sheet1" "A1" roundTripPayload
     (Json.arr [Json.arr [Json.str "a", Json.str "b"], Json.arr [Json.str "c", Json.str "d"]]) rfl rfl,
   C8_wire_contract.2.2.2.2.2.2.2.2.2.2.2 "wb" "Sheet1" "A1" "not valid json" rfl⟩

/-- C9: reading a cell that is empty on an existing sheet returns the empty
string, not a null marker (`str(value) if value is not None else ""`). -/
theorem C9_empty_cell (book : Book) (sheet_name cell_address : String) (s0 : Sheet)
    (r c : Nat) (hs : findSheet book sheet_name = some s0)
    (ha : parseCellAddr cell_address = some (r, c)) (hc : s0.cells r c = none) :
    (read_cell_value true book sheet_name cell_address).result = "" := by
  unfold read_cell_value safe_excel_operation _read_cell
  simp only [hs, ha]
  rw [hc]
  rfl

/-- C9, witness: reading the empty cell B2 of the concrete empty sheet. -/
theorem C9_empty_cell_witness :
    (read_cell_value true book1 "Sheet1" "B2").result = "" :=
  C9_empty_cell book1 "Sheet1" "B2" sheet1 1 1 rfl rfl rfl

/-- C10: for every wrapped operation and every argument set, the HTTP
variant of `safe_excel_operation` returns normally with a status dictionary
— success carrying the result exactly when the file exists and the
operation returns, and error carrying the formatted message when the file
is missing or the operation raises; no exception escapes. -/
theorem C10_guard_total (fileExists : Bool) (initial : Book)
    (op : Book → Book × Except PyExn String) :
    ((∃ r, (safe_excel_operation_service fileExists initial op).response = ApiResult.success r)
      ∨ (∃ m, (safe_excel_operation_service fileExists initial op).response = ApiResult.error m))
  ∧ (fileExists = false →
      (safe_excel_operation_service fileExists initial op).response
        = ApiResult.error ("Error: " ++ ("Excel file not found: " ++ EXCEL_FILE_PATH)))
  ∧ (∀ b2 r, fileExists = true → op initial = (b2, Except.ok r) →
      (safe_excel_operation_service fileExists initial op).response = ApiResult.success r)
  ∧ (∀ b2 e, fileExists = true → op initial = (b2, Except.error e) →
      (safe_excel_operation_service fileExists initial op).response = ApiResult.error (pyErrMsg e)) := by
  unfold safe_excel_operation_service
  cases fileExists
  · refine ⟨Or.inr ⟨_, rfl⟩, fun _ => rfl, ?_, ?_⟩
    · intro b2 r hfe
      exact absurd hfe (by decide)
    · intro b2 e hfe
      exact absurd hfe (by decide)
  · rcases hop : op initial with ⟨b2, outc⟩
    cases outc with
    | ok r =>
      refine ⟨Or.inl ⟨r, by simp⟩, fun hfe => absurd hfe (by decide), ?_, ?_⟩
      · intro b3 r2 _ hop2
        simp only [Prod.mk.injEq, Except.ok.injEq] at hop2
        obtain ⟨h1, h2⟩ := hop2
        subst h2
        rfl
      · intro b3 e _ hop2
        simp at hop2
    | error e =>
      refine ⟨Or.inr ⟨pyErrMsg e, by simp⟩, fun hfe => absurd hfe (by decide), ?_, ?_⟩
      · intro b3 r2 _ hop2
        simp at hop2
      · intro b3 e2 _ hop2
        simp only [Prod.mk.injEq, Except.error.injEq] at hop2
        obtain ⟨h1, h2⟩ := hop2
        subst h2
        rfl

/-- C10, witness: the guard around `_get_sheet_names` on the concrete
one-sheet workbook yields the success dictionary. -/
theorem C10_guard_total_witness :
    (safe_excel_operation_service true book1 _get_sheet_names).response
      = ApiResult.success "Sheet1" :=
  (C10_guard_total true book1 _get_sheet_names).2.2.1 book1 "Sheet1" rfl rfl
